import Mathlib

/-
Verification development for the Project-Management repository.

The embedding models:
  * the relational store (four tables backed by better-sqlite3) as lists of rows;
  * the model layer's dynamic SQL assembly (src/model/model.js) as functions that
    build the exact statement strings / condition lists the JavaScript builds;
  * the mutation functions (addOrUpdateX, removeX) as statement builders plus
    executable semantics over the store;
  * the detail projection builders (getPersonDetailsTable, getTaskDetailsTable,
    getChannelDetailsTable) as store-passing functions computing the joined,
    aggregated views;
  * the controllers' promise-chain operation queue (PersonController.js,
    ChannelController.js, RemainderController.js: _queueOperation / ready) as a
    fold over queued continuations, with JavaScript promise semantics: attaching
    a continuation with then to an already rejected chain skips the continuation
    and keeps the rejection.

JavaScript truthiness is modelled explicitly: the code guards optional fields
with plain truthiness tests (so 0 and the empty string count as absent), except
where it tests a value against undefined, which is modelled as Option.isSome.
-/

set_option autoImplicit false

namespace ProjectManagement

/-- Truthiness of an optional number as JavaScript sees it:
undefined and 0 are falsy. -/
def natTruthy : Option Nat → Bool
  | none => false
  | some n => n != 0

/-- Truthiness of an optional string as JavaScript sees it:
undefined and the empty string are falsy. -/
def strTruthy : Option String → Bool
  | none => false
  | some s => s != ""

/-! ## Data model (tables created in database.js) -/

/-- A row of the person table: id, name (NOT NULL), optional task_id. -/
structure PersonRow where
  id : Nat
  name : String
  task_id : Option Nat
deriving Repr, DecidableEq

/-- A row of the task table. -/
structure TaskRow where
  id : Nat
  title : String
  assigned_to : Option Nat
  related_channel : Option Nat
  task_status : Option String
  start_date : Option String
  deadline : Option String
deriving Repr, DecidableEq

/-- A row of the channel table. -/
structure ChannelRow where
  id : Nat
  channel_name : String
deriving Repr, DecidableEq

/-- A row of the remainder table (sic): task_id, remainder_date and
reminder_time are NOT NULL. -/
structure RemainderRow where
  id : Nat
  task_id : Nat
  remainder_date : String
  reminder_time : String
deriving Repr, DecidableEq

/-- The relational store: the four tables of project-tables.db. -/
structure Store where
  persons : List PersonRow
  tasks : List TaskRow
  channels : List ChannelRow
  remainders : List RemainderRow
deriving Repr, DecidableEq

/-! ## Mutation payloads (the option bags passed to addOrUpdateX) -/

/-- Argument object of addOrUpdatePerson. -/
structure PersonPayload where
  id : Option Nat
  name : Option String
  task_id : Option Nat
deriving Repr, DecidableEq

/-- Argument object of addOrUpdateTask. -/
structure TaskPayload where
  id : Option Nat
  title : Option String
  assigned_to : Option Nat
  related_channel : Option Nat
  task_status : Option String
  start_date : Option String
  deadline : Option String
deriving Repr, DecidableEq

/-- Argument object of addOrUpdateChannel. -/
structure ChannelPayload where
  id : Option Nat
  channel_name : Option String
deriving Repr, DecidableEq

/-- Argument object of addOrUpdateRemainder. -/
structure RemainderPayload where
  id : Option Nat
  task_id : Option Nat
  remainder_date : Option String
  reminder_time : Option String
deriving Repr, DecidableEq

/-! ## model.js: addOrUpdate statement builders

Each function mirrors the SQL text assembly of src/model/model.js.  A
validation error thrown by the JavaScript before any statement reaches the
engine is an Except.error; a successful build is Except.ok with the statement
text (template-literal whitespace normalised to single spaces). -/

/-- Statement built by addOrUpdatePerson: an id routes to an UPDATE whose SET
clause always contains task_id = @task_id and appends name = @name (with no
separating comma) when name is truthy; otherwise an INSERT.  The function
performs no validation of its own. -/
def addOrUpdatePersonStmt (p : PersonPayload) : Except String String :=
  .ok (if natTruthy p.id then
        "UPDATE person SET task_id = @task_id " ++
          (if strTruthy p.name then "name = @name " else "") ++ "WHERE id = @id"
      else "INSERT INTO person (name, task_id) VALUES (@name, @task_id)")

/-- SET clauses assembled by addOrUpdateTask for an update: one clause per
truthy field, in source order. -/
def taskSetClauses (p : TaskPayload) : List String :=
  (if strTruthy p.title then ["title = @title"] else []) ++
  (if natTruthy p.assigned_to then ["assigned_to = @assigned_to"] else []) ++
  (if natTruthy p.related_channel then ["related_channel = @related_channel"] else []) ++
  (if strTruthy p.task_status then ["task_status = @task_status"] else []) ++
  (if strTruthy p.start_date then ["start_date = @start_date"] else []) ++
  (if strTruthy p.deadline then ["deadline = @deadline"] else [])

/-- Statement built by addOrUpdateTask: with a truthy id it is an UPDATE of
exactly the truthy fields, throwing No fields to update when no SET clause was
collected; without an id it is the full six-column INSERT. -/
def addOrUpdateTaskStmt (p : TaskPayload) : Except String String :=
  if natTruthy p.id then
    if taskSetClauses p = [] then .error "No fields to update"
    else .ok ("UPDATE task SET " ++ String.intercalate ", " (taskSetClauses p) ++
      " WHERE id = @id")
  else
    .ok ("INSERT INTO task (title, assigned_to, related_channel, task_status, start_date, deadline) " ++
      "VALUES (@title, @assigned_to, @related_channel, @task_status, @start_date, @deadline)")

/-- Statement list actually handed to the engine by addOrUpdateTask paired with
the outcome: a validation error executes nothing. -/
def addOrUpdateTaskRun (p : TaskPayload) : List String × Except String String :=
  match addOrUpdateTaskStmt p with
  | .error e => ([], .error e)
  | .ok q => ([q], .ok q)

/-- Statement built by addOrUpdateChannel: no validation of any kind. -/
def addOrUpdateChannelStmt (p : ChannelPayload) : Except String String :=
  .ok (if natTruthy p.id then
        "UPDATE channel SET channel_name = @channel_name WHERE id = @id"
      else "INSERT INTO channel (channel_name) VALUES (@channel_name)")

/-- Parameter keys collected by addOrUpdateRemainder (task_id always, then the
truthy date and time fields), driving both the SET clauses and the INSERT
column list. -/
def remainderParamKeys (p : RemainderPayload) : List String :=
  ["task_id"] ++
  (if strTruthy p.remainder_date then ["remainder_date"] else []) ++
  (if strTruthy p.reminder_time then ["reminder_time"] else [])

/-- SET clauses assembled by addOrUpdateRemainder: task_id = @task_id is always
first, followed by the truthy date and time clauses. -/
def remainderSetClauses (p : RemainderPayload) : List String :=
  ["task_id = @task_id"] ++
  (if strTruthy p.remainder_date then ["remainder_date = @remainder_date"] else []) ++
  (if strTruthy p.reminder_time then ["reminder_time = @reminder_time"] else [])

/-- Statement built by addOrUpdateRemainder: throws Task ID is required when
task_id is falsy, before any statement is prepared; otherwise an UPDATE (id
truthy) or an INSERT over exactly the collected parameter keys. -/
def addOrUpdateRemainderStmt (p : RemainderPayload) : Except String String :=
  if natTruthy p.task_id = false then .error "Task ID is required"
  else .ok (if natTruthy p.id then
      "UPDATE remainder SET " ++ String.intercalate ", " (remainderSetClauses p) ++
        " WHERE id = @id"
    else
      "INSERT INTO remainder (" ++ String.intercalate ", " (remainderParamKeys p) ++
        ") VALUES (" ++
        String.intercalate ", " ((remainderParamKeys p).map (fun k => "@" ++ k)) ++ ")")

/-- Statement list actually handed to the engine by addOrUpdateRemainder paired
with the outcome: the Task ID is required error executes nothing, so the store
is untouched. -/
def addOrUpdateRemainderRun (p : RemainderPayload) : List String × Except String String :=
  match addOrUpdateRemainderStmt p with
  | .error e => ([], .error e)
  | .ok q => ([q], .ok q)

/-! ## model.js: remove functions with executable store semantics

removePerson and removeTask first run an existence SELECT and throw before any
DELETE when the row is missing; the DELETE statements themselves cannot fail in
the store model (database.js never enables SQLite foreign-key enforcement, so
no constraint can reject a delete). -/

/-- Effect of DELETE FROM remainder WHERE task_id = ?. -/
def deleteRemaindersOfTask (id : Nat) (s : Store) : Store :=
  { s with remainders := s.remainders.filter (fun r => r.task_id != id) }

/-- Effect of DELETE FROM task WHERE id = ?. -/
def deleteTaskRow (id : Nat) (s : Store) : Store :=
  { s with tasks := s.tasks.filter (fun t => t.id != id) }

/-- removePerson: requires a truthy id, throws Person not found when the
existence SELECT returns no row, otherwise deletes the row. -/
def removePerson (id : Nat) (s : Store) : Except String Store :=
  if id = 0 then .error "Person ID is required"
  else match s.persons.find? (fun p => p.id == id) with
    | none => .error "Person not found"
    | some _ => .ok { s with persons := s.persons.filter (fun p => p.id != id) }

/-- removeTask, with the trace of statements actually executed: the existence
SELECT runs first; only when it finds the task do the remainder-cascade DELETE
and the task DELETE run, in that order. -/
def removeTaskRun (id : Nat) (s : Store) : List String × Except String Store :=
  if id = 0 then ([], .error "Task ID is required")
  else
    match s.tasks.find? (fun t => t.id == id) with
    | none => (["SELECT * FROM task WHERE id = ?"], .error "Task not found")
    | some _ =>
      (["SELECT * FROM task WHERE id = ?",
        "DELETE FROM remainder WHERE task_id = ?",
        "DELETE FROM task WHERE id = ?"],
       .ok (deleteTaskRow id (deleteRemaindersOfTask id s)))

/-- The store after removeTask: unchanged when the call threw. -/
def removeTaskFinal (id : Nat) (s : Store) : Store :=
  match (removeTaskRun id s).2 with
  | .ok s2 => s2
  | .error _ => s

/-! ## model.js: query builders (statement text)

These mirror the dynamic SQL assembly character for character, with
template-literal whitespace normalised to single spaces. -/

/-- WHERE fragment assembled by getPersons: the filterEmptyTasks condition is
overwritten, not conjoined, when task_id is truthy, and the replacement is
prefixed WHERE only if filterEmptyTasks was set, else AND. -/
def getPersonsWhereCondition (filterEmptyTasks : Bool) (task_id : Option Nat) : String :=
  let w := if filterEmptyTasks then "WHERE task_id IS NOT NULL " else ""
  if natTruthy task_id then
    (if filterEmptyTasks then "WHERE" else "AND") ++ " task_id = @taskId"
  else w

/-- Full statement text prepared by getPersons. -/
def getPersonsStatement (filterEmptyTasks : Bool) (task_id : Option Nat) : String :=
  "SELECT * FROM person " ++ getPersonsWhereCondition filterEmptyTasks task_id ++
    " ORDER BY name @sort LIMIT @limit"

/-- Filters object accepted by getTasks.  The four filter fields are tested
against undefined in the source, so presence is Option.isSome here; orderBy,
sort and limit take destructuring defaults when undefined. -/
structure TaskFilters where
  id : Option Nat
  assignedTo : Option Nat
  relatedChannel : Option Nat
  taskStatus : Option String
  orderBy : Option String
  sort : Option String
  limit : Option Nat
deriving Repr, DecidableEq

/-- Conditions list collected by getTasks: one per defined filter, in source
order. -/
def getTasksConditions (f : TaskFilters) : List String :=
  (if f.id.isSome then ["id = @id"] else []) ++
  (if f.assignedTo.isSome then ["assigned_to = @assignedTo"] else []) ++
  (if f.relatedChannel.isSome then ["related_channel = @relatedChannel"] else []) ++
  (if f.taskStatus.isSome then ["task_status = @taskStatus"] else [])

/-- WHERE clause of getTasks: the AND-joined conditions prefixed by WHERE, or
empty when no filter was supplied. -/
def getTasksWhereClause (f : TaskFilters) : String :=
  if (getTasksConditions f).length != 0 then
    "WHERE " ++ String.intercalate " AND " (getTasksConditions f)
  else ""

/-- Full query text prepared by getTasks: the caller's orderBy and sort are
interpolated directly into the statement. -/
def getTasksQuery (f : TaskFilters) : String :=
  "SELECT * FROM task " ++ getTasksWhereClause f ++ " ORDER BY " ++
    f.orderBy.getD "title" ++ " " ++ f.sort.getD "ASC" ++ " LIMIT @limit"

/-- The limit value getTasks binds to @limit: the caller's limit or 50. -/
def getTasksParamsLimit (f : TaskFilters) : Nat := f.limit.getD 50

/-! ## model.js: detail projection builders

Store-passing embedding of the three read-only joined views.  Each function
takes the current store, executes only a SELECT, and returns the computed rows
together with the (unchanged) store reached through the engine.  LEFT JOIN plus
GROUP BY on the left table's id collapses each group to a single row; with a
bare (non-aggregated) joined column SQLite surfaces one row of the group, which
is modelled as the first matching row in table order.  SQL three-valued logic
makes a comparison against a NULL column false for filtering purposes. -/

/-- String order used for ORDER BY text columns. -/
def strLe (a b : String) : Bool := compare a b != Ordering.gt

/-- Directional comparison: DESC flips the order, anything else sorts
ascending. -/
def dirLe (sort : String) (a b : String) : Bool :=
  if sort = "DESC" then strLe b a else strLe a b

/-- Order on nullable sort keys: SQL sorts NULLs first ascending. -/
def optStrLe : Option String → Option String → Bool
  | none, _ => true
  | some _, none => false
  | some a, some b => strLe a b

/-- Directional comparison on nullable sort keys. -/
def optDirLe (sort : String) (a b : Option String) : Bool :=
  if sort = "DESC" then optStrLe b a else optStrLe a b

/-- Insert into a sorted list, keeping the boolean order le. -/
def insertSorted {α : Type} (le : α → α → Bool) (x : α) : List α → List α
  | [] => [x]
  | y :: ys => if le x y then x :: y :: ys else y :: insertSorted le x ys

/-- Insertion sort by the boolean order le, modelling ORDER BY. -/
def sortRows {α : Type} (le : α → α → Bool) : List α → List α
  | [] => []
  | x :: xs => insertSorted le x (sortRows le xs)

/-- Minimum of a list of strings, modelling MIN over a group (none for an
empty group). -/
def minString? (l : List String) : Option String :=
  l.foldl (fun acc x =>
    match acc with
    | none => some x
    | some m => if strLe m x then some m else some x) none

/-- Options object of getPersonDetailsTable (sort, filterEmptyTasks, limit take
destructuring defaults). -/
structure PersonDetailsOptions where
  sort : Option String
  filterEmptyTasks : Option Bool
  limit : Option Nat
deriving Repr, DecidableEq

/-- A row of the person detail view. -/
structure PersonDetailsRow where
  name : String
  currentChannel : Option String
  currentTask : Option String
  currentTaskDeadline : Option String
  nextKeyPointRemainder : Option String
  isActive : Nat
deriving Repr, DecidableEq

/-- The joined row the person view produces for one person: left joins to the
person's task, that task's channel, and a remainder of that task. -/
def personDetailsRow (s : Store) (p : PersonRow) : PersonDetailsRow :=
  let task := p.task_id.bind (fun tid => s.tasks.find? (fun t => t.id == tid))
  let channel := task.bind (fun t => t.related_channel.bind
    (fun cid => s.channels.find? (fun c => c.id == cid)))
  let rem := task.bind (fun t => s.remainders.find? (fun r => r.task_id == t.id))
  { name := p.name
    currentChannel := channel.map (fun c => c.channel_name)
    currentTask := task.map (fun t => t.title)
    currentTaskDeadline := task.bind (fun t => t.deadline)
    nextKeyPointRemainder := rem.map (fun r => r.remainder_date ++ " " ++ r.reminder_time)
    isActive := if task.isSome then 1 else 0 }

/-- getPersonDetailsTable: one row per person, optionally restricted to
persons whose joined task exists, ordered by name, limited. -/
def getPersonDetailsTable (o : PersonDetailsOptions) (s : Store) :
    List PersonDetailsRow × Store :=
  let sort := o.sort.getD "ASC"
  let fet := o.filterEmptyTasks.getD false
  let limit := o.limit.getD 50
  let base := if fet then
      s.persons.filter (fun p =>
        (p.task_id.bind (fun tid => s.tasks.find? (fun t => t.id == tid))).isSome)
    else s.persons
  ((sortRows (fun a b => dirLe sort a.name b.name) (base.map (personDetailsRow s))).take limit,
   s)

/-- Options object of getTaskDetailsTable; the three filters are guarded by
truthiness in the source. -/
structure TaskDetailsOptions where
  sort : Option String
  sortBy : Option String
  limit : Option Nat
  assignedTo : Option Nat
  taskStatus : Option String
  relatedChannel : Option Nat
deriving Repr, DecidableEq

/-- A row of the task detail view. -/
structure TaskDetailsRow where
  title : String
  relatedChannel : Option String
  closestRemainder : Option String
  deadline : Option String
  startDate : Option String
  assignedTo : Option String
  taskStatus : Option String
deriving Repr, DecidableEq

/-- The joined, aggregated row the task view produces for one task: channel
and assignee by left join, MIN over the combined remainder timestamps. -/
def taskDetailsRow (s : Store) (t : TaskRow) : TaskDetailsRow :=
  let channel := t.related_channel.bind (fun cid => s.channels.find? (fun c => c.id == cid))
  let person := t.assigned_to.bind (fun pid => s.persons.find? (fun p => p.id == pid))
  let rems := (s.remainders.filter (fun r => r.task_id == t.id)).map
    (fun r => r.remainder_date ++ " " ++ r.reminder_time)
  { title := t.title
    relatedChannel := channel.map (fun c => c.channel_name)
    closestRemainder := minString? rems
    deadline := t.deadline
    startDate := t.start_date
    assignedTo := person.map (fun p => p.name)
    taskStatus := t.task_status }

/-- ORDER BY column of getTaskDetailsTable: the nested conditional constrains
the caller's sortBy to four task columns, defaulting to task.title. -/
def taskDetailsOrderColumn (sortBy : String) : String :=
  if sortBy = "title" then "task.title"
  else if sortBy = "task_status" then "task.task_status"
  else if sortBy = "start_date" then "task.start_date"
  else if sortBy = "deadline" then "task.deadline"
  else "task.title"

/-- Sort key the resolved ORDER BY column reads from a task view row. -/
def taskDetailsSortKey (sortBy : String) (r : TaskDetailsRow) : Option String :=
  if sortBy = "task_status" then r.taskStatus
  else if sortBy = "start_date" then r.startDate
  else if sortBy = "deadline" then r.deadline
  else some r.title

/-- The limit getTaskDetailsTable binds to @limit: the caller's limit or 50. -/
def taskDetailsLimit (o : Option Nat) : Nat := o.getD 50

/-- getTaskDetailsTable: one row per task passing the truthy-guarded filters,
ordered by the allow-listed column, limited. -/
def getTaskDetailsTable (o : TaskDetailsOptions) (s : Store) :
    List TaskDetailsRow × Store :=
  let sort := o.sort.getD "ASC"
  let sortBy := o.sortBy.getD "title"
  let limit := taskDetailsLimit o.limit
  let filtered := s.tasks.filter (fun t =>
    (if natTruthy o.assignedTo then t.assigned_to == o.assignedTo else true) &&
    (if strTruthy o.taskStatus then t.task_status == o.taskStatus else true) &&
    (if natTruthy o.relatedChannel then t.related_channel == o.relatedChannel else true))
  ((sortRows (fun a b => optDirLe sort (taskDetailsSortKey sortBy a) (taskDetailsSortKey sortBy b))
      (filtered.map (taskDetailsRow s))).take limit,
   s)

/-- Options object of getChannelDetailsTable. -/
structure ChannelDetailsOptions where
  sort : Option String
  limit : Option Nat
deriving Repr, DecidableEq

/-- A row of the channel detail view. -/
structure ChannelDetailsRow where
  channelTitle : String
  numActiveDevs : Nat
  numActiveTasks : Nat
deriving Repr, DecidableEq

/-- The aggregated row the channel view produces for one channel: tasks join
only when their status is non-NULL and not Completed (SQL NULL comparison);
devs are the distinct persons whose task_id is one of those tasks. -/
def channelDetailsRow (s : Store) (c : ChannelRow) : ChannelDetailsRow :=
  let activeTasks := s.tasks.filter (fun t =>
    t.related_channel == some c.id &&
      (match t.task_status with
       | some st => st != "Completed"
       | none => false))
  let taskIds := (activeTasks.map (fun t => t.id)).dedup
  let devIds := ((s.persons.filter (fun p =>
      match p.task_id with
      | some tid => taskIds.contains tid
      | none => false)).map (fun p => p.id)).dedup
  { channelTitle := c.channel_name
    numActiveDevs := devIds.length
    numActiveTasks := taskIds.length }

/-- getChannelDetailsTable: one row per channel, ordered by channel name,
limited. -/
def getChannelDetailsTable (o : ChannelDetailsOptions) (s : Store) :
    List ChannelDetailsRow × Store :=
  let sort := o.sort.getD "ASC"
  let limit := o.limit.getD 50
  ((sortRows (fun a b => dirLe sort a.channelTitle b.channelTitle)
      (s.channels.map (channelDetailsRow s))).take limit,
   s)

/-! ## Controllers: selection cursor

incrementSelectedX / decrementSelectedX / getSelectedX operate on a JavaScript
number index into the cached table; the index is an Int because decrementing on
an empty table stores length - 1 = -1, and indexing out of range (negative or
past the end) yields undefined, which getSelectedX turns into null. -/

/-- incrementSelectedX: below the last index step forward, else wrap to 0. -/
def incrementSelected (sel : Int) (len : Nat) : Int :=
  if sel < (len : Int) - 1 then sel + 1 else 0

/-- decrementSelectedX: above 0 step back, else wrap to the last index. -/
def decrementSelected (sel : Int) (len : Nat) : Int :=
  if sel > 0 then sel - 1 else (len : Int) - 1

/-- getSelectedX: the row at the cursor, or none when the index misses the
table (in particular always none on an empty table). -/
def getSelected {α : Type} (table : List α) (sel : Int) : Option α :=
  if sel < 0 then none else table.get? sel.toNat

/-! ## Controllers: promise-chain operation queue

_queueOperation replaces the pending promise by pending.then(operation); a
queued operation runs the mutation and, on success, the refresh that replaces
the cached table.  JavaScript promise semantics: then with no rejection handler
on an already rejected chain skips the continuation and re-raises the same
rejection, so the chain state is one of ok or error.  ready() awaits the chain
and observes exactly that state. -/

/-- State of one controller: the backing store, the cached table, and the
settled state of _pendingOperation. -/
structure ChainState (τ : Type) where
  store : Store
  table : τ
  chain : Except String Unit
deriving Repr

/-- Attaching one queued continuation to the chain.  The continuation is a
mutation followed by refresh (table := proj of the new store).  A rejected
chain skips the continuation; a failing mutation rejects the chain, skips the
refresh and leaves store and table as they were. -/
def queueOp {τ : Type} (op : Store → Except String Store) (proj : Store → τ)
    (cs : ChainState τ) : ChainState τ :=
  match cs.chain with
  | .error e => { store := cs.store, table := cs.table, chain := .error e }
  | .ok _ =>
    match op cs.store with
    | .error e => { store := cs.store, table := cs.table, chain := .error e }
    | .ok s2 => { store := s2, table := proj s2, chain := .ok () }

/-- Submitting a list of operations in order, as successive _queueOperation
calls. -/
def runChain {τ : Type} (proj : Store → τ) (ops : List (Store → Except String Store))
    (cs : ChainState τ) : ChainState τ :=
  ops.foldl (fun acc op => queueOp op proj acc) cs

/-- A queued operation together with the wall-clock duration its body takes:
the continuation only starts when the previous link settles, whatever the
durations are. -/
structure TimedOp where
  dur : Nat
  run : Store → Except String Store

/-- Start and finish times of each queued continuation under promise-chain
scheduling: each link starts exactly when the previous one settles; a link
attached to a rejected chain settles immediately (its body never runs). -/
def schedule : List TimedOp → Except String Unit → Store → Nat → List (Nat × Nat)
  | [], _, _, _ => []
  | op :: rest, ch, s, t =>
    match ch with
    | .error e => (t, t) :: schedule rest (.error e) s t
    | .ok _ =>
      match op.run s with
      | .error e => (t, t + op.dur) :: schedule rest (.error e) s (t + op.dur)
      | .ok s2 => (t, t + op.dur) :: schedule rest (.ok ()) s2 (t + op.dur)

/-- The intervals are sequential from time t: each starts exactly where the
previous one finished, and none overlaps its successor. -/
def SeqFrom : Nat → List (Nat × Nat) → Prop
  | _, [] => True
  | t, p :: rest => p.1 = t ∧ t ≤ p.2 ∧ SeqFrom p.2 rest

/-- Executing timed operations: the durations play no role in the resulting
controller state. -/
def execTimed {τ : Type} (proj : Store → τ) : List TimedOp → ChainState τ → ChainState τ
  | [], cs => cs
  | op :: rest, cs => execTimed proj rest (queueOp op.run proj cs)

/-! ### Queue lemmas -/

theorem queueOp_error {τ : Type} (op : Store → Except String Store) (proj : Store → τ)
    (cs : ChainState τ) (e : String) (h : cs.chain = .error e) :
    queueOp op proj cs = cs := by
  obtain ⟨st, tb, ch⟩ := cs
  simp only at h
  simp [queueOp, h]

theorem runChain_error_absorb {τ : Type} (proj : Store → τ)
    (ops : List (Store → Except String Store)) (cs : ChainState τ) (e : String)
    (h : cs.chain = .error e) : runChain proj ops cs = cs := by
  induction ops generalizing cs with
  | nil => rfl
  | cons op rest ih =>
    have h1 : queueOp op proj cs = cs := queueOp_error op proj cs e h
    simp only [runChain, List.foldl_cons]
    rw [h1]
    exact ih cs h

theorem seqFrom_schedule (ops : List TimedOp) :
    ∀ (ch : Except String Unit) (s : Store) (t : Nat), SeqFrom t (schedule ops ch s t) := by
  induction ops with
  | nil => intro ch s t; trivial
  | cons op rest ih =>
    intro ch s t
    match ch with
    | .error e => exact ⟨rfl, le_refl t, ih (.error e) s t⟩
    | .ok _ =>
      match h : op.run s with
      | .error e =>
        simp only [schedule, h]
        exact ⟨rfl, Nat.le_add_right t op.dur, ih (.error e) s (t + op.dur)⟩
      | .ok s2 =>
        simp only [schedule, h]
        exact ⟨rfl, Nat.le_add_right t op.dur, ih (.ok ()) s2 (t + op.dur)⟩

theorem execTimed_eq_runChain {τ : Type} (proj : Store → τ) (ops : List TimedOp) :
    ∀ cs : ChainState τ, execTimed proj ops cs = runChain proj (ops.map TimedOp.run) cs := by
  induction ops with
  | nil => intro cs; rfl
  | cons op rest ih =>
    intro cs
    simp only [execTimed, List.map_cons, runChain, List.foldl_cons]
    exact ih (queueOp op.run proj cs)

/-! ## Demonstration data used by witnesses and counterexamples -/

/-- A store with one task (id 1) carrying two remainders, plus a stray
remainder of task 2. -/
def demoStore : Store :=
  ⟨[], [⟨1, "Design", none, none, none, none, none⟩], [],
   [⟨1, 1, "2024-01-01", "09:00"⟩, ⟨2, 1, "2024-02-01", "10:00"⟩, ⟨3, 2, "x", "y"⟩]⟩

/-- demoStore after removing task 1: both of its remainders and the task row
are gone, the unrelated remainder survives. -/
def demoStoreAfter : Store := ⟨[], [], [], [⟨3, 2, "x", "y"⟩]⟩

/-- A sample row of the person detail view. -/
def demoPersonRow : PersonDetailsRow := ⟨"A", none, none, none, none, 0⟩

/-- A store with two persons, used by the queue scenarios. -/
def demoChainStore : Store := ⟨[⟨1, "Ann", none⟩, ⟨2, "Bob", none⟩], [], [], []⟩

/-- The refresh a PersonController performs with its default sort and
filters. -/
def demoProj : Store → List PersonDetailsRow :=
  fun s => (getPersonDetailsTable ⟨some "ASC", some false, none⟩ s).1

/-- Three queued operations where the first takes longest: remove person 1,
remove person 2, then a pure refresh. -/
def demoOpsSlow : List TimedOp :=
  [⟨5, removePerson 1⟩, ⟨1, removePerson 2⟩, ⟨1, fun s => .ok s⟩]

/-- The same three operations with different durations. -/
def demoOpsFast : List TimedOp :=
  [⟨0, removePerson 1⟩, ⟨9, removePerson 2⟩, ⟨2, fun s => .ok s⟩]

/-! ## Claim theorems -/

/-- Claim C1, counterexample: with the chain idle on a store holding only
person 2, queueing removePerson 1 (which fails with Person not found) and then
removePerson 2 leaves person 2 in the store and the chain rejected: the later
queued continuation did not run, refuting the claim that every later queued
continuation still runs. -/
theorem queue_failure_skips_rest_counterexample :
    let s0 : Store := ⟨[⟨2, "Bob", none⟩], [], [], []⟩
    let cs := runChain demoProj [removePerson 1, removePerson 2] ⟨s0, demoProj s0, .ok ()⟩
    cs.store.persons = [⟨2, "Bob", none⟩] ∧ cs.chain = .error "Person not found" := by
  exact ⟨rfl, rfl⟩

/-- Claim C1, amended: when a queued continuation fails, the error surfaces to
whoever awaits the chain from then on (ready observes exactly that rejection),
and the cached table and store stay as they stood before the failed step; but
later queued continuations do NOT run — the chain stays rejected, so every
subsequent queued operation is skipped and has no effect. -/
theorem queue_failure_amended {τ : Type} (proj : Store → τ) (cs : ChainState τ)
    (op : Store → Except String Store) (rest : List (Store → Except String Store))
    (e : String) (h0 : cs.chain = .ok ()) (h1 : op cs.store = .error e) :
    (runChain proj (op :: rest) cs).chain = .error e ∧
    (runChain proj (op :: rest) cs).store = cs.store ∧
    (runChain proj (op :: rest) cs).table = cs.table := by
  have hstep : queueOp op proj cs = ⟨cs.store, cs.table, .error e⟩ := by
    unfold queueOp
    rw [h0, h1]
  have hall : runChain proj (op :: rest) cs = ⟨cs.store, cs.table, .error e⟩ := by
    simp only [runChain, List.foldl_cons]
    rw [hstep]
    exact runChain_error_absorb proj rest _ e rfl
  rw [hall]
  exact ⟨rfl, rfl, rfl⟩

/-- Claim C1 witness: the amended theorem applied to the concrete failing
chain. -/
theorem queue_failure_amended_witness :
    (runChain demoProj (removePerson 1 :: [removePerson 2])
        ⟨⟨[⟨2, "Bob", none⟩], [], [], []⟩,
         demoProj ⟨[⟨2, "Bob", none⟩], [], [], []⟩, .ok ()⟩).store =
      ⟨[⟨2, "Bob", none⟩], [], [], []⟩ := by
  exact (queue_failure_amended demoProj
    ⟨⟨[⟨2, "Bob", none⟩], [], [], []⟩,
     demoProj ⟨[⟨2, "Bob", none⟩], [], [], []⟩, .ok ()⟩
    (removePerson 1) [removePerson 2] "Person not found" rfl rfl).2.1

/-- Claim C2 (code evaluated at the failing input): getPersons with
filterEmptyTasks unset and task_id supplied emits its single condition with no
WHERE keyword at all (the statement reads FROM person AND task_id = @taskId),
and with both filters supplied the empty-tasks condition is overwritten so only
one condition remains for two supplied filters; getTasks, by contrast, builds
exactly one WHERE-joined condition per supplied filter. -/
theorem getPersons_where_malformed :
    getPersonsStatement false (some 5) =
      "SELECT * FROM person AND task_id = @taskId ORDER BY name @sort LIMIT @limit" ∧
    getPersonsWhereCondition true (some 5) = "WHERE task_id = @taskId" ∧
    getTasksWhereClause ⟨none, some 4, none, some "Open", none, none, none⟩ =
      "WHERE assigned_to = @assignedTo AND task_status = @taskStatus" := by
  exact ⟨rfl, rfl, rfl⟩

/-- Claim C3: removeTask is an atomic cascade — with a nonzero id, when the
task exists the call succeeds and the resulting store contains exactly the
remainders whose task_id differs from the removed id and exactly the tasks with
a different id (persons and channels untouched); when no task matches, the call
fails with Task not found and the final store is unchanged, so every remainder
row survives. -/
theorem removeTask_cascade_atomic (id : Nat) (s : Store) (hid : id ≠ 0) :
    (∀ s2, (removeTaskRun id s).2 = .ok s2 →
        (∀ r, r ∈ s2.remainders ↔ r ∈ s.remainders ∧ r.task_id ≠ id) ∧
        (∀ t, t ∈ s2.tasks ↔ t ∈ s.tasks ∧ t.id ≠ id) ∧
        s2.persons = s.persons ∧ s2.channels = s.channels) ∧
    ((∃ t ∈ s.tasks, t.id = id) → ∃ s2, (removeTaskRun id s).2 = .ok s2) ∧
    ((∀ t ∈ s.tasks, t.id ≠ id) →
        (removeTaskRun id s).2 = .error "Task not found" ∧ removeTaskFinal id s = s) := by
  rcases hf : s.tasks.find? (fun t => t.id == id) with _ | t
  · have hrun : (removeTaskRun id s).2 = .error "Task not found" := by
      simp [removeTaskRun, hid, hf]
    refine ⟨?_, ?_, ?_⟩
    · intro s2 h
      rw [hrun] at h
      cases h
    · rintro ⟨t, ht, hteq⟩
      rw [List.find?_eq_none] at hf
      exact absurd (by simpa using hteq) (by simpa using hf t ht)
    · intro _
      refine ⟨hrun, ?_⟩
      unfold removeTaskFinal
      rw [hrun]
  · have hrun : (removeTaskRun id s).2 =
        .ok (deleteTaskRow id (deleteRemaindersOfTask id s)) := by
      simp [removeTaskRun, hid, hf]
    refine ⟨?_, ?_, ?_⟩
    · intro s2 h
      rw [hrun] at h
      injection h with h
      subst h
      refine ⟨?_, ?_, rfl, rfl⟩
      · intro r
        simp [deleteTaskRow, deleteRemaindersOfTask, List.mem_filter]
      · intro t2
        simp [deleteTaskRow, deleteRemaindersOfTask, List.mem_filter]
    · intro _
      exact ⟨_, hrun⟩
    · intro hall
      have hmem := List.mem_of_find?_eq_some hf
      have hp := List.find?_some hf
      have : t.id = id := by simpa using hp
      exact absurd this (hall t hmem)

/-- Claim C3 witness: removing task 1 from the demonstration store removes
both of its remainders together with the task and keeps the unrelated
remainder, persons and channels. -/
theorem removeTask_cascade_atomic_witness :
    ((⟨3, 2, "x", "y"⟩ : RemainderRow) ∈ demoStoreAfter.remainders ↔
      (⟨3, 2, "x", "y"⟩ : RemainderRow) ∈ demoStore.remainders ∧
        (⟨3, 2, "x", "y"⟩ : RemainderRow).task_id ≠ 1) ∧
    demoStoreAfter.persons = demoStore.persons ∧
    demoStoreAfter.channels = demoStore.channels := by
  have h := (removeTask_cascade_atomic 1 demoStore (by decide)).1 demoStoreAfter rfl
  exact ⟨h.1 ⟨3, 2, "x", "y"⟩, h.2.2.1, h.2.2.2⟩

/-- Claim C4 (code evaluated at the failing input): an addOrUpdatePerson update
that omits task_id still emits task_id = @task_id in its SET clause, and when
name is also supplied the two SET items are concatenated without a comma, so
the update never preserves the omitted task_id as the claim requires. -/
theorem addOrUpdatePerson_update_sets_omitted_task_id :
    addOrUpdatePersonStmt ⟨some 1, some "Ann", none⟩ =
      .ok "UPDATE person SET task_id = @task_id name = @name WHERE id = @id" ∧
    addOrUpdatePersonStmt ⟨some 1, none, none⟩ =
      .ok "UPDATE person SET task_id = @task_id WHERE id = @id" := by
  exact ⟨rfl, rfl⟩

/-- Claim C5: queued continuations execute one at a time in submission order —
the promise-chain schedule is a gap-free sequence of intervals, each starting
exactly when the previous one settles — and the resulting controller state is
the sequential fold of the submitted operations, independent of the individual
operations' durations. -/
theorem queue_sequential_total_order {τ : Type} (proj : Store → τ)
    (ops opsAlt : List TimedOp) (cs : ChainState τ) (t0 : Nat)
    (h : ops.map TimedOp.run = opsAlt.map TimedOp.run) :
    SeqFrom t0 (schedule ops cs.chain cs.store t0) ∧
    execTimed proj ops cs = runChain proj (ops.map TimedOp.run) cs ∧
    execTimed proj ops cs = execTimed proj opsAlt cs := by
  refine ⟨seqFrom_schedule ops cs.chain cs.store t0, execTimed_eq_runChain proj ops cs, ?_⟩
  rw [execTimed_eq_runChain proj ops cs, execTimed_eq_runChain proj opsAlt cs, h]

/-- Claim C5 witness: with M1 (remove person 1) slower than M2 (remove person
2) followed by a refresh, the schedule is sequential and the final state
matches the run with entirely different durations; both persons end up removed
in submission order. -/
theorem queue_sequential_total_order_witness :
    SeqFrom 0 (schedule demoOpsSlow (Except.ok ()) demoChainStore 0) ∧
    execTimed demoProj demoOpsSlow ⟨demoChainStore, demoProj demoChainStore, .ok ()⟩ =
      execTimed demoProj demoOpsFast ⟨demoChainStore, demoProj demoChainStore, .ok ()⟩ ∧
    (execTimed demoProj demoOpsSlow
      ⟨demoChainStore, demoProj demoChainStore, .ok ()⟩).store.persons = [] := by
  have h := queue_sequential_total_order demoProj demoOpsSlow demoOpsFast
    ⟨demoChainStore, demoProj demoChainStore, .ok ()⟩ 0 rfl
  exact ⟨h.1, h.2.2, rfl⟩

/-- Claim C6, counterexample: addOrUpdateChannel called with an id and zero
updatable fields does not fail with a validation error — it happily builds the
update statement, refuting the claim for "every entity's add-or-update
operation". -/
theorem channel_zero_field_update_not_rejected :
    addOrUpdateChannelStmt ⟨some 5, none⟩ =
      .ok "UPDATE channel SET channel_name = @channel_name WHERE id = @id" := by
  exact rfl

/-- Claim C6, amended: only Task and Remainder validate — addOrUpdateTask with
an id and zero collected SET clauses fails with No fields to update and
executes nothing, and addOrUpdateRemainder fails with Task ID is required
whenever task_id is falsy (insert or update) and executes nothing; Person's and
Channel's operations never raise a validation error of their own. -/
theorem addOrUpdate_validation_amended (pt : TaskPayload) (pr : RemainderPayload)
    (pc : ChannelPayload) (pp : PersonPayload) :
    (natTruthy pt.id = true → taskSetClauses pt = [] →
      addOrUpdateTaskRun pt = ([], .error "No fields to update")) ∧
    (natTruthy pr.task_id = false →
      addOrUpdateRemainderRun pr = ([], .error "Task ID is required")) ∧
    (∃ q, addOrUpdateChannelStmt pc = .ok q) ∧
    (∃ q, addOrUpdatePersonStmt pp = .ok q) := by
  refine ⟨?_, ?_, ⟨_, rfl⟩, ⟨_, rfl⟩⟩
  · intro h1 h2
    simp [addOrUpdateTaskRun, addOrUpdateTaskStmt, h1, h2]
  · intro h
    simp [addOrUpdateRemainderRun, addOrUpdateRemainderStmt, h]

/-- Claim C6 witness: the amended theorem at concrete payloads — a zero-field
Task update is rejected with No fields to update, and a Remainder payload whose
task_id is 0 (falsy) is rejected with Task ID is required. -/
theorem addOrUpdate_validation_amended_witness :
    addOrUpdateTaskRun ⟨some 3, none, none, none, none, none, none⟩ =
      ([], .error "No fields to update") ∧
    addOrUpdateRemainderRun ⟨some 9, some 0, none, none⟩ =
      ([], .error "Task ID is required") := by
  have h := addOrUpdate_validation_amended ⟨some 3, none, none, none, none, none, none⟩
    ⟨some 9, some 0, none, none⟩ ⟨some 5, none⟩ ⟨some 1, none, none⟩
  exact ⟨h.1 rfl rfl, h.2.1 rfl⟩

/-- Claim C7, counterexample: getTasks splices the caller's orderBy directly
into the statement text — an identifier outside the claimed allow-list reaches
the generated SQL unmodified. -/
theorem getTasks_orderBy_injection_counterexample :
    getTasksQuery ⟨none, none, none, none, some "evil", none, none⟩ =
      "SELECT * FROM task  ORDER BY evil ASC LIMIT @limit" ∧
    ¬ "evil" ∈ ["title", "task_status", "start_date", "deadline"] := by
  exact ⟨rfl, by decide⟩

/-- Claim C7, amended: the allow-list holds for the Task detail view only —
getTaskDetailsTable resolves any caller-supplied sortBy to one of the four
vetted task columns, defaulting to task.title, and both getTasks and
getTaskDetailsTable bind a LIMIT of 50 when the caller omits limit; getTasks
itself interpolates orderBy without any allow-list. -/
theorem taskDetails_orderBy_allowlist_amended (sortBy : String) (f : TaskFilters) :
    taskDetailsOrderColumn sortBy ∈
      ["task.title", "task.task_status", "task.start_date", "task.deadline"] ∧
    taskDetailsOrderColumn "title" = "task.title" ∧
    (f.limit = none → getTasksParamsLimit f = 50) ∧
    taskDetailsLimit none = 50 := by
  refine ⟨?_, rfl, ?_, rfl⟩
  · unfold taskDetailsOrderColumn
    split_ifs <;> simp
  · intro h
    simp [getTasksParamsLimit, h]

/-- Claim C7 witness: the amended theorem at a concrete sort key and a filter
bag with no limit. -/
theorem taskDetails_orderBy_allowlist_amended_witness :
    taskDetailsOrderColumn "deadline" ∈
      ["task.title", "task.task_status", "task.start_date", "task.deadline"] ∧
    getTasksParamsLimit ⟨none, none, none, none, none, none, none⟩ = 50 := by
  have h := taskDetails_orderBy_allowlist_amended "deadline"
    ⟨none, none, none, none, none, none, none⟩
  exact ⟨h.1, h.2.2.1 rfl⟩

/-- Claim C8: on a cached table of size n with a cursor inside it, increment at
index n-1 wraps to 0 and otherwise steps to index+1; decrement at index 0 wraps
to n-1 and otherwise steps to index-1; and on an empty cached table getSelected
returns none (null) for every cursor value rather than raising. -/
theorem selection_cursor_wraparound {α : Type} (table : List α) (sel : Nat)
    (hn : 0 < table.length) (hsel : sel < table.length) :
    (incrementSelected sel table.length =
      if sel = table.length - 1 then 0 else (sel : Int) + 1) ∧
    (decrementSelected sel table.length =
      if sel = 0 then (table.length : Int) - 1 else (sel : Int) - 1) ∧
    (∀ i : Int, getSelected ([] : List α) i = none) := by
  refine ⟨?_, ?_, ?_⟩
  · unfold incrementSelected
    split_ifs with h1 h2 <;> omega
  · unfold decrementSelected
    split_ifs with h1 h2 <;> omega
  · intro i
    unfold getSelected
    split_ifs with h
    · rfl
    · simp

/-- Claim C8 witness: on a table of size 3, increment at index 2 yields 0,
decrement at index 0 yields 2, and the empty table yields no selection at the
cursor value -1 reached by decrementing on an empty table. -/
theorem selection_cursor_wraparound_witness :
    incrementSelected 2 3 = 0 ∧ decrementSelected 0 3 = 2 ∧
    getSelected ([] : List PersonDetailsRow) (-1) = none := by
  have h2 := selection_cursor_wraparound [demoPersonRow, demoPersonRow, demoPersonRow] 2
    (by decide) (by decide)
  have h0 := selection_cursor_wraparound [demoPersonRow, demoPersonRow, demoPersonRow] 0
    (by decide) (by decide)
  refine ⟨?_, ?_, h2.2.2 (-1)⟩
  · have := h2.1
    simpa using this
  · have := h0.2.1
    simpa using this

/-- Claim C9: the three detail projection builders are pure functions of the
current store state — each returns the store unchanged (they execute only a
SELECT), and a second call with identical options against the store reached
through the first call returns an identical table. -/
theorem detail_projections_pure (po : PersonDetailsOptions) (ot : TaskDetailsOptions)
    (co : ChannelDetailsOptions) (s : Store) :
    (getPersonDetailsTable po s).2 = s ∧
    (getTaskDetailsTable ot s).2 = s ∧
    (getChannelDetailsTable co s).2 = s ∧
    (getPersonDetailsTable po ((getPersonDetailsTable po s).2)).1 =
      (getPersonDetailsTable po s).1 ∧
    (getTaskDetailsTable ot ((getTaskDetailsTable ot s).2)).1 =
      (getTaskDetailsTable ot s).1 ∧
    (getChannelDetailsTable co ((getChannelDetailsTable co s).2)).1 =
      (getChannelDetailsTable co s).1 := by
  exact ⟨rfl, rfl, rfl, rfl, rfl, rfl⟩

/-- Claim C10: addOrUpdateRemainder requires task_id on every call — whenever
task_id is falsy (also on an update identified by id) it fails with Task ID is
required and executes no statement, so the store is untouched; and whenever
task_id is present the SET clause list always contains task_id = @task_id, and
an update executes exactly the UPDATE built from those clauses. -/
theorem remainder_requires_task_id (p : RemainderPayload) :
    (natTruthy p.task_id = false →
      addOrUpdateRemainderRun p = ([], .error "Task ID is required")) ∧
    (natTruthy p.task_id = true →
      "task_id = @task_id" ∈ remainderSetClauses p ∧
      (natTruthy p.id = true →
        addOrUpdateRemainderRun p =
          (["UPDATE remainder SET " ++ String.intercalate ", " (remainderSetClauses p) ++
              " WHERE id = @id"],
           .ok ("UPDATE remainder SET " ++ String.intercalate ", " (remainderSetClauses p) ++
              " WHERE id = @id")))) := by
  constructor
  · intro h
    simp [addOrUpdateRemainderRun, addOrUpdateRemainderStmt, h]
  · intro h
    refine ⟨by simp [remainderSetClauses], ?_⟩
    intro hid
    simp [addOrUpdateRemainderRun, addOrUpdateRemainderStmt, h, hid]

/-- Claim C10 witness: an update payload (id present) with a date but no
task_id is rejected before touching the store, and a complete update payload
always carries the task_id SET clause. -/
theorem remainder_requires_task_id_witness :
    addOrUpdateRemainderRun ⟨some 2, none, some "2024-01-01", none⟩ =
      ([], .error "Task ID is required") ∧
    "task_id = @task_id" ∈ remainderSetClauses ⟨some 3, some 7, none, some "10:00"⟩ := by
  have h1 := remainder_requires_task_id ⟨some 2, none, some "2024-01-01", none⟩
  have h2 := remainder_requires_task_id ⟨some 3, some 7, none, some "10:00"⟩
  exact ⟨h1.1 rfl, (h2.2 rfl).1⟩

end ProjectManagement
